import Mathlib

/-!
Verification development for the omi_hack repository.

Shallow embedding of the core of the system: the OAuth2/PKCE token
lifecycle of `McpClientService` (src/mcp-client.service.ts), the bounded
tool-calling loop of `AiService.runPrompt` (src/ai.service.ts) and the
direct tool-call endpoint of `AppController` (src/app.controller.ts).

External collaborators (the `fetch` HTTP calls, the MCP transport
handshakes, the chat-completion model, the remote tool executor and the
cryptographic primitives `crypto.randomBytes` / SHA-256) are modelled as
oracle parameters.  Every service method is modelled as a pure function
from the service state (and its oracles) to a result record that carries
the outcome, the successor state and, as instrumentation, the list of
token-endpoint requests issued during the call.
-/

namespace OmiHack

/-! Constants from src/mcp-client.service.ts -/

def CLIENT_ID : String := "swiggy-mcp"

def REDIRECT_URI : String := "http://localhost:3000/oauth/callback"

def SCOPES : String := "mcp:tools mcp:resources mcp:prompts"

/-- Error message thrown by `exchangeCodeForToken` when no pending authorization is stored. -/
def noPendingAuthMsg : String := "No pending authorization. Start the OAuth flow first."

/-- Error message thrown by `exchangeCodeForToken` on a state-nonce mismatch. -/
def stateMismatchMsg : String := "State mismatch. Possible CSRF attack."

/-- Error message thrown by `refreshAccessToken` when no refresh token is available. -/
def noRefreshTokenMsg : String := "No refresh token available. Re-authorize."

/-- Error message thrown by `refreshAccessToken` when the token endpoint rejects the refresh. -/
def refreshFailedMsg : String := "Token refresh failed. Re-authorize."

/-- Error message thrown by `getValidToken` when no token is stored. -/
def notAuthenticatedMsg : String := "Not authenticated. Complete OAuth flow first."

/-! Data model of the McpClientService -/

/-- Mirrors the `TokenData` interface.  Timestamps are milliseconds as `Int`
(the JS numbers returned by `Date.now()`); `expires_in` is the seconds
lifetime from the token-endpoint JSON. -/
structure TokenData where
  access_token : String
  refresh_token : Option String
  token_type : String
  expires_in : Option Nat
  expires_at : Option Int
deriving Repr, DecidableEq

/-- Mirrors the `PendingAuth` interface. -/
structure PendingAuth where
  codeVerifier : String
  state : String
deriving Repr, DecidableEq

/-- The two MCP transports tried by `connect`. -/
inductive Transport where
  | streamableHttp
  | sse
deriving Repr, DecidableEq

/-- A connected MCP `Client` instance.  `instanceId` distinguishes distinct
`new Client(...)` allocations, `transport` records which transport the
`client.connect` call used, and `bearerToken` the token in the
`Authorization` header handed to that transport. -/
structure ClientHandle where
  instanceId : Nat
  transport : Transport
  bearerToken : String
deriving Repr, DecidableEq

/-- The mutable fields of `McpClientService`. -/
structure McpState where
  client : Option ClientHandle
  tokenData : Option TokenData
  pendingAuth : Option PendingAuth
deriving Repr, DecidableEq

/-- A form-encoded POST to the token endpoint, as built by
`exchangeCodeForToken` (grant type `authorization_code`) or
`refreshAccessToken` (grant type `refresh_token`). -/
inductive TokenRequest where
  | authorizationCode (code redirect_uri client_id code_verifier : String)
  | refreshToken (refresh_token client_id : String)
deriving Repr, DecidableEq

/-- Outcome of a `fetch` of the token endpoint: an ok response whose JSON
body parsed as `TokenData`, a non-ok response with status and body text, or
a rejection of the fetch itself (network error). -/
inductive FetchOutcome where
  | ok (token : TokenData)
  | httpError (status : Nat) (body : String)
  | thrown (msg : String)
deriving Repr, DecidableEq

/-- Models `if (this.tokenData.expires_in) this.tokenData.expires_at =
Date.now() + this.tokenData.expires_in * 1000` (a falsy `expires_in`,
absent or zero, leaves `expires_at` untouched). -/
def applyExpiry (td : TokenData) (now : Int) : TokenData :=
  match td.expires_in with
  | some n => if n != 0 then { td with expires_at := some (now + (n : Int) * 1000) } else td
  | none => td

instance {ε α : Type} [DecidableEq ε] [DecidableEq α] : DecidableEq (Except ε α) := fun x y =>
  match x, y with
  | .ok a, .ok b =>
    if h : a = b then .isTrue (h ▸ rfl) else .isFalse (fun hh => h (Except.ok.inj hh))
  | .error a, .error b =>
    if h : a = b then .isTrue (h ▸ rfl) else .isFalse (fun hh => h (Except.error.inj hh))
  | .ok _, .error _ => .isFalse (fun hh => Except.noConfusion hh)
  | .error _, .ok _ => .isFalse (fun hh => Except.noConfusion hh)

/-- Result of a state-mutating client operation with no return value. -/
structure OpResult where
  outcome : Except String Unit
  state : McpState
  requests : List TokenRequest
deriving Repr, DecidableEq

/-- Result of `getValidToken`: outcome carries the access token; the
`refreshCalls` field counts how many times `refreshAccessToken` was
invoked during the call. -/
structure GetTokenResult where
  outcome : Except String String
  state : McpState
  requests : List TokenRequest
  refreshCalls : Nat
deriving Repr, DecidableEq

/-! Base64url (no padding), modelling `Buffer.toString('base64url')` /
`hash.digest('base64url')` on a byte sequence. -/

def b64urlAlphabet : List Char :=
  "ABCDEFGHIJKLMNOPQRSTUVWXYZabcdefghijklmnopqrstuvwxyz0123456789-_".toList

def b64charAt (i : Nat) : Char := b64urlAlphabet.getD i 'A'

/-- Encode bytes three at a time into base64url characters, emitting the
shortened final group with no padding characters. -/
def base64urlChunks : List Nat → List Char
  | [] => []
  | [b1] => [b64charAt (b1 / 4), b64charAt (b1 % 4 * 16)]
  | [b1, b2] =>
      [b64charAt (b1 / 4), b64charAt (b1 % 4 * 16 + b2 / 16), b64charAt (b2 % 16 * 4)]
  | b1 :: b2 :: b3 :: rest =>
      b64charAt (b1 / 4) :: b64charAt (b1 % 4 * 16 + b2 / 16)
        :: b64charAt (b2 % 16 * 4 + b3 / 64) :: b64charAt (b3 % 64)
        :: base64urlChunks rest

def base64urlEncode (bytes : List Nat) : String :=
  String.mk (base64urlChunks bytes)

/-! Authorization flow (spec section 4.1) -/

/-- Query parameters of the authorization URL built by `getAuthorizationUrl`. -/
structure AuthUrlParams where
  response_type : String
  client_id : String
  redirect_uri : String
  scope : String
  state : String
  code_challenge : String
  code_challenge_method : String
deriving Repr, DecidableEq

/-- Models `generatePKCE`.  `hash` is the SHA-256 oracle (string to digest
bytes) and `randomBytes32` the output of `crypto.randomBytes(32)`.
Returns `(codeVerifier, codeChallenge)`. -/
def generatePKCE (hash : String → List Nat) (randomBytes32 : List Nat) : String × String :=
  let codeVerifier := base64urlEncode randomBytes32
  let codeChallenge := base64urlEncode (hash codeVerifier)
  (codeVerifier, codeChallenge)

/-- Models `getAuthorizationUrl`.  `stateHex` is the hex encoding of
`crypto.randomBytes(16)` (randomness oracle).  Returns the successor state
(with the new pending authorization stored) and the query parameters of
the returned URL. -/
def getAuthorizationUrl (s : McpState) (hash : String → List Nat)
    (randomBytes32 : List Nat) (stateHex : String) : McpState × AuthUrlParams :=
  let pkce := generatePKCE hash randomBytes32
  let s2 := { s with pendingAuth := some { codeVerifier := pkce.1, state := stateHex } }
  (s2,
   { response_type := "code"
     client_id := CLIENT_ID
     redirect_uri := REDIRECT_URI
     scope := SCOPES
     state := stateHex
     code_challenge := pkce.2
     code_challenge_method := "S256" })

/-- The authorization-code grant request body built by `exchangeCodeForToken`. -/
def authCodeReq (code codeVerifier : String) : TokenRequest :=
  TokenRequest.authorizationCode code REDIRECT_URI CLIENT_ID codeVerifier

/-- Models `exchangeCodeForToken(code, state)`. -/
def exchangeCodeForToken (s : McpState) (code st : String) (now : Int)
    (fetch : TokenRequest → FetchOutcome) : OpResult :=
  match s.pendingAuth with
  | none => { outcome := .error noPendingAuthMsg, state := s, requests := [] }
  | some pa =>
    if pa.state != st then
      { outcome := .error stateMismatchMsg, state := s, requests := [] }
    else
      let req := authCodeReq code pa.codeVerifier
      match fetch req with
      | .ok tok =>
        { outcome := .ok ()
          state := { s with tokenData := some (applyExpiry tok now), pendingAuth := none }
          requests := [req] }
      | .httpError status body =>
        { outcome := .error ("Token exchange failed: " ++ toString status ++ " " ++ body)
          state := s
          requests := [req] }
      | .thrown msg =>
        { outcome := .error msg, state := s, requests := [req] }

/-- The refresh grant request body built by `refreshAccessToken`. -/
def refreshReq (rt : String) : TokenRequest := TokenRequest.refreshToken rt CLIENT_ID

/-- Models `refreshAccessToken`.  The guard `!this.tokenData?.refresh_token`
fires when no token is stored, when it has no refresh token, or when the
refresh token is the (falsy) empty string. -/
def refreshAccessToken (s : McpState) (now : Int)
    (fetch : TokenRequest → FetchOutcome) : OpResult :=
  match s.tokenData with
  | none => { outcome := .error noRefreshTokenMsg, state := s, requests := [] }
  | some td =>
    match td.refresh_token with
    | none => { outcome := .error noRefreshTokenMsg, state := s, requests := [] }
    | some rt =>
      if rt == "" then
        { outcome := .error noRefreshTokenMsg, state := s, requests := [] }
      else
        let req := refreshReq rt
        match fetch req with
        | .ok tok =>
          { outcome := .ok ()
            state := { s with tokenData := some (applyExpiry tok now) }
            requests := [req] }
        | .httpError _ _ =>
          { outcome := .error refreshFailedMsg
            state := { s with tokenData := none }
            requests := [req] }
        | .thrown msg =>
          { outcome := .error msg, state := s, requests := [req] }

/-- Models `getValidToken`.  Refresh is triggered when `expires_at` is
present and truthy (nonzero) and `Date.now() > expires_at - 60_000`. -/
def getValidToken (s : McpState) (now : Int)
    (fetch : TokenRequest → FetchOutcome) : GetTokenResult :=
  match s.tokenData with
  | none => { outcome := .error notAuthenticatedMsg, state := s, requests := [], refreshCalls := 0 }
  | some td =>
    let needsRefresh : Bool :=
      match td.expires_at with
      | some exp => !(exp == 0) && decide (exp - 60000 < now)
      | none => false
    if needsRefresh then
      let r := refreshAccessToken s now fetch
      match r.outcome with
      | .error e =>
        { outcome := .error e, state := r.state, requests := r.requests, refreshCalls := 1 }
      | .ok _ =>
        match r.state.tokenData with
        | some td2 =>
          { outcome := .ok td2.access_token, state := r.state, requests := r.requests
            refreshCalls := 1 }
        | none =>
          { outcome := .error "TypeError", state := r.state, requests := r.requests
            refreshCalls := 1 }
    else
      { outcome := .ok td.access_token, state := s, requests := [], refreshCalls := 0 }

/-- Models `isAuthenticated`. -/
def isAuthenticated (s : McpState) : Bool := s.tokenData.isSome

/-! Connection establishment (spec section 4.2) -/

/-- Outcome of one `client.connect(transport)` handshake attempt (oracle). -/
inductive AttemptOutcome where
  | success
  | failure (msg : String)
deriving Repr, DecidableEq

/-- Models `connect`.  `nextId` is the allocation counter for fresh
`Client` instances: the first-choice (Streamable HTTP) attempt uses a
client with `instanceId = nextId`, the fallback (SSE) attempt allocates a
fresh client with `instanceId = nextId + 1`.  `attempt` is the handshake
oracle. -/
def connect (s : McpState) (now : Int) (fetch : TokenRequest → FetchOutcome)
    (nextId : Nat) (attempt : ClientHandle → AttemptOutcome) : OpResult :=
  let g := getValidToken s now fetch
  match g.outcome with
  | .error e => { outcome := .error e, state := g.state, requests := g.requests }
  | .ok token =>
    let clientA : ClientHandle :=
      { instanceId := nextId, transport := .streamableHttp, bearerToken := token }
    match attempt clientA with
    | .success =>
      { outcome := .ok (), state := { g.state with client := some clientA }
        requests := g.requests }
    | .failure _ =>
      let clientB : ClientHandle :=
        { instanceId := nextId + 1, transport := .sse, bearerToken := token }
      match attempt clientB with
      | .success =>
        { outcome := .ok (), state := { g.state with client := some clientB }
          requests := g.requests }
      | .failure e2 =>
        { outcome := .error ("Failed to connect to MCP server: " ++ e2)
          state := { g.state with client := none }
          requests := g.requests }

/-! Orchestration loop (src/ai.service.ts).  The chat-completion API and
the remote tool executor are oracles; JSON values appearing as tool
arguments are modelled by a flat value type. -/

/-- Flat JSON scalar values used for tool arguments. -/
inductive JVal where
  | s (v : String)
  | n (v : Int)
  | b (v : Bool)
  | null
deriving Repr, DecidableEq

/-- A parsed JSON-object argument set, as an association list. -/
abbrev Args := List (String × JVal)

/-- Membership of a key, modelling the JS `'k' in obj` test. -/
def hasKey (args : Args) (k : String) : Bool := args.any (fun p => p.1 == k)

/-- Assignment `obj[k] = v`: replace the bound value if the key is
present, append the binding otherwise. -/
def setKey : Args → String → JVal → Args
  | [], k, v => [(k, v)]
  | p :: t, k, v => if p.1 == k then (k, v) :: t else p :: setKey t k v

/-- Key lookup, for stating properties of the stored argument sets. -/
def getKey (args : Args) (k : String) : Option JVal :=
  match args.find? (fun p => p.1 == k) with
  | some p => some p.2
  | none => none

/-- Decides whether `sub` occurs at the start of `l`. -/
def leadsWith : List Char → List Char → Bool
  | [], _ => true
  | _ :: _, [] => false
  | a :: as, b :: bs => a == b && leadsWith as bs

/-- Decides whether `sub` occurs anywhere in the second list. -/
def containsSub (sub : List Char) : List Char → Bool
  | [] => sub.isEmpty
  | c :: t => leadsWith sub (c :: t) || containsSub sub t

/-- Models the JS `s.includes(sub)` substring test. -/
def strIncludes (s sub : String) : Bool := containsSub sub.toList s.toList

/-- The hardcoded address identifier injected by `runPrompt`. -/
def FIXED_ADDRESS_ID : String := "d0hfrab7gis2gb0kpm50"

/-- The deny-list of tool names never offered to the model
(`blockedTools` in `runPrompt`). -/
def blockedTools : List String := ["get_addresses", "create_cart", "add_to_cart"]

/-- An MCP tool descriptor as returned by `listTools` (`inputSchema` kept
opaque as its serialized form). -/
structure McpTool where
  name : String
  description : Option String
  inputSchema : Option String
deriving Repr, DecidableEq

/-- Parameter schema of an OpenAI function tool: either the MCP tool's
own input schema, or the default empty-object schema substituted when the
tool has none. -/
inductive ParamSchema where
  | fromInput (schema : String)
  | defaultEmpty
deriving Repr, DecidableEq

/-- An OpenAI chat-completion tool (the `type: 'function'` union member,
with the nested `function` object flattened). -/
structure OpenAITool where
  type : String
  name : String
  description : String
  parameters : ParamSchema
deriving Repr, DecidableEq

/-- Models `mcpToolsToOpenAI`. -/
def mcpToolsToOpenAI (mcpTools : List McpTool) : List OpenAITool :=
  mcpTools.map fun tool =>
    { type := "function"
      name := tool.name
      description := tool.description.getD ""
      parameters :=
        match tool.inputSchema with
        | some sch => ParamSchema.fromInput sch
        | none => ParamSchema.defaultEmpty }

/-- Models the `filteredTools` computation of `runPrompt`: function tools
whose name is on the deny-list are removed. -/
def filteredToolsOf (openaiTools : List OpenAITool) : List OpenAITool :=
  openaiTools.filter fun t =>
    if t.type == "function" then !(blockedTools.contains t.name) else true

/-- The `tools` parameter passed to every chat-completion call of a run:
`filteredTools.length > 0 ? filteredTools : undefined`. -/
def toolsParamOf (mcpTools : List McpTool) : Option (List OpenAITool) :=
  let filtered := filteredToolsOf (mcpToolsToOpenAI mcpTools)
  if filtered.length > 0 then some filtered else none

/-- One tool-call request in an assistant reply.  `parsedArgs` is the
outcome of `JSON.parse` on the call's argument text (an oracle datum):
`none` models a parse failure, which the loop degrades to `{}`. -/
structure ToolCallReq where
  id : String
  callType : String
  name : String
  parsedArgs : Option Args
deriving Repr, DecidableEq

/-- A conversation message (system / user / assistant / tool-result). -/
inductive ChatMsg where
  | system (content : String)
  | user (content : String)
  | assistant (content : Option String) (tool_calls : List ToolCallReq)
  | tool (tool_call_id : String) (content : String)
deriving Repr, DecidableEq

/-- The model's reply to one chat-completion call. -/
structure AssistantReply where
  content : Option String
  finish_reason : String
  tool_calls : List ToolCallReq
deriving Repr, DecidableEq

/-- One chat-completion request: the (filtered) tool schema and the full
conversation so far. -/
structure ChatRequest where
  tools : Option (List OpenAITool)
  messages : List ChatMsg
deriving Repr, DecidableEq

/-- A tool result as recorded in the trace: the remote result content
(kept opaque as a string), the canned short-circuit result
`[\x7b id: FIXED_ADDRESS_ID \x7d]` for `get_addresses`, or the
error-shaped object `\x7b error: message \x7d` built from a thrown
invocation. -/
inductive ToolResultVal where
  | content (s : String)
  | canned (id : String)
  | errObj (msg : String)
deriving Repr, DecidableEq

/-- One entry of the `toolCallLog` trace. -/
structure ToolCallRecord where
  tool : String
  args : Args
  result : ToolResultVal
deriving Repr, DecidableEq

/-- The value of `runPrompt`. -/
structure RunResult where
  response : String
  toolCalls : List ToolCallRecord
deriving Repr, DecidableEq

/-- Serialization of a tool result into the tool message content:
`typeof toolResult === 'string' ? toolResult : JSON.stringify(toolResult)`. -/
def stringifyResult : ToolResultVal → String
  | .content s => s
  | .canned i => "[\x7b\"id\":\"" ++ i ++ "\"\x7d]"
  | .errObj m => "\x7b\"error\":\"" ++ m ++ "\"\x7d"

/-- The system instruction seeding every conversation. -/
def systemPromptText : String :=
  "You are a helpful assistant with access to Swiggy tools. Use the available tools to help the user with their food ordering, restaurant search, and delivery needs. Always call tools when the user asks for something that requires fetching data or performing actions.\n\nIMPORTANT: The user\x27s address_id is always \"d0hfrab7gis2gb0kpm50\". Never call get_addresses. Whenever a tool requires an address_id parameter, use \"d0hfrab7gis2gb0kpm50\".\n\nIMPORTANT: After calling search_products, ALWAYS automatically select the first product/item from the results without asking the user. Proceed immediately with that first option for any subsequent actions (e.g. adding to cart, viewing details).\n\nIMPORTANT: ALWAYS use modify_cart to add or update items in the cart. NEVER use create_cart or add_to_cart. If you need to add items, use modify_cart to update the existing cart. This avoids creating duplicate carts."

/-- The seed conversation: one system instruction and the user prompt. -/
def initialMessages (prompt : String) : List ChatMsg :=
  [ChatMsg.system systemPromptText, ChatMsg.user prompt]

/-- The fixed response returned when the iteration cap is exhausted. -/
def maxIterationsResponse : String :=
  "Reached maximum tool-calling iterations. Last state of conversation is preserved."

/-- Final response text: `assistantMessage.content || 'No response generated.'`. -/
def finalResponseText : Option String → String
  | some c => if c == "" then "No response generated." else c
  | none => "No response generated."

/-- Arguments actually used for a tool call: the parsed arguments (empty
on parse failure), with `address_id` overwritten by the fixed identifier
when the argument set contains that key or the tool name contains
`address`. -/
def effectiveArgs (tc : ToolCallReq) : Args :=
  let a := tc.parsedArgs.getD []
  if hasKey a "address_id" || strIncludes tc.name "address" then
    setKey a "address_id" (JVal.s FIXED_ADDRESS_ID)
  else a

/-- Execution of one tool-call request: non-function calls are skipped;
`get_addresses` is short-circuited to the canned result; otherwise the
remote executor is invoked and a thrown invocation is converted into an
error-shaped result.  Returns the trace record and the tool message
appended to the conversation. -/
def runToolCall (exec : String → Args → Except String String) (tc : ToolCallReq) :
    Option (ToolCallRecord × ChatMsg) :=
  if tc.callType != "function" then none
  else
    let toolArgs := effectiveArgs tc
    let toolResult : ToolResultVal :=
      if tc.name == "get_addresses" then .canned FIXED_ADDRESS_ID
      else
        match exec tc.name toolArgs with
        | .ok content => .content content
        | .error e => .errObj e
    some ({ tool := tc.name, args := toolArgs, result := toolResult },
          ChatMsg.tool tc.id (stringifyResult toolResult))

/-- Execution of all tool calls of one round, in order, collecting the
trace records and the tool messages. -/
def execRound (exec : String → Args → Except String String) :
    List ToolCallReq → List ToolCallRecord × List ChatMsg
  | [] => ([], [])
  | tc :: rest =>
    let tail := execRound exec rest
    match runToolCall exec tc with
    | none => tail
    | some (r, m) => (r :: tail.1, m :: tail.2)

/-- The tool-calling loop of `runPrompt`, with the remaining iteration
budget as fuel.  Each round sends the conversation plus the filtered tool
schema to the model oracle, appends the assistant message, returns the
final text if the reply carries no tool calls, and otherwise executes the
round's tool calls and recurses. -/
def runLoop (modelFn : ChatRequest → AssistantReply)
    (exec : String → Args → Except String String)
    (toolsArg : Option (List OpenAITool))
    (messages : List ChatMsg) (log : List ToolCallRecord) :
    Nat → RunResult
  | 0 => { response := maxIterationsResponse, toolCalls := log }
  | fuel + 1 =>
    let reply := modelFn { tools := toolsArg, messages := messages }
    let messages2 := messages ++ [ChatMsg.assistant reply.content reply.tool_calls]
    if reply.finish_reason != "tool_calls" || reply.tool_calls.isEmpty then
      { response := finalResponseText reply.content, toolCalls := log }
    else
      let step := execRound exec reply.tool_calls
      runLoop modelFn exec toolsArg (messages2 ++ step.2) (log ++ step.1) fuel

/-- Models `AiService.runPrompt`.  `mcpTools` is the discovered tool set
(the result of `listTools`), `modelFn` the chat-completion oracle and
`exec` the remote tool-invocation oracle. -/
def runPrompt (modelFn : ChatRequest → AssistantReply)
    (exec : String → Args → Except String String)
    (mcpTools : List McpTool) (prompt : String) (maxIterations : Nat) : RunResult :=
  runLoop modelFn exec (toolsParamOf mcpTools) (initialMessages prompt) [] maxIterations

/-! Direct tool call (src/app.controller.ts, POST /tool/call) -/

/-- The tool invocation forwarded to `McpClientService.callTool`. -/
structure ForwardedCall where
  name : String
  args : Args
deriving Repr, DecidableEq

/-- Models `AppController.callTool`: after the authentication guard and
the missing-name guard, the named tool is forwarded to the Tool-Protocol
Client with `body.args || \x7b\x7d`, with no deny-list filtering. -/
def callToolDirectly (s : McpState) (name : String) (args : Option Args) :
    Except String ForwardedCall :=
  if !(isAuthenticated s) then
    .error "Not authenticated. Visit /oauth/login first."
  else if name == "" then
    .error "Missing \"name\" in request body"
  else
    .ok { name := name, args := args.getD [] }

/-! Helper lemmas -/

/-- Setting a key makes it retrievable with exactly the written value. -/
theorem getKey_setKey (a : Args) (k : String) (v : JVal) :
    getKey (setKey a k v) k = some v := by
  induction a with
  | nil => simp [setKey, getKey]
  | cons p t ih =>
    by_cases h : p.1 = k
    · simp [setKey, getKey, h]
    · simp only [setKey, getKey] at ih ⊢
      have hb : (p.1 == k) = false := by simpa using h
      simp [hb, List.find?, ih]

/-! Concrete fixtures used by the witness theorems -/

def tdSample : TokenData :=
  { access_token := "A", refresh_token := some "R", token_type := "Bearer"
    expires_in := none, expires_at := some 100000 }

def sSample : McpState :=
  { client := none, tokenData := some tdSample, pendingAuth := none }

def fetchOkSample : TokenRequest → FetchOutcome := fun _ =>
  .ok { access_token := "B", refresh_token := some "R2", token_type := "Bearer"
        expires_in := some 3600, expires_at := none }

def fetchRejectSample : TokenRequest → FetchOutcome := fun _ => .httpError 400 "bad"

/-! Claim theorems -/

/-- C1: every tool name on the static deny-list (`get_addresses`,
`create_cart`, `add_to_cart`) is absent from the filtered tool schema that
`runPrompt` passes to the chat-completion call, for every discovered tool
set; while a direct tool call on that same name, bypassing the model, is
forwarded to the Tool-Protocol Client unfiltered. -/
theorem c1_denylist_filter_vs_direct_call :
    (∀ (mcpTools : List McpTool) (n : String), n ∈ blockedTools →
      ∀ t ∈ (toolsParamOf mcpTools).getD [], t.name ≠ n)
    ∧ (∀ (s : McpState) (n : String) (args : Args), n ∈ blockedTools →
      isAuthenticated s = true →
      callToolDirectly s n (some args) = .ok { name := n, args := args }) := by
  constructor
  · intro mcpTools n hn t ht
    have ht' : t ∈ filteredToolsOf (mcpToolsToOpenAI mcpTools) := by
      by_cases hl : (filteredToolsOf (mcpToolsToOpenAI mcpTools)).length > 0
      · simpa [toolsParamOf, hl] using ht
      · simp [toolsParamOf, hl] at ht
    rcases List.mem_filter.mp ht' with ⟨hmem, hpred⟩
    rcases List.mem_map.mp hmem with ⟨tool, _, rfl⟩
    simp only [beq_self_eq_true, if_true, Bool.not_eq_true'] at hpred
    simp only [List.contains, List.elem_eq_mem, decide_eq_false_iff_not] at hpred
    intro hcontra
    apply hpred
    have hname : tool.name = n := by simpa using hcontra
    rw [hname]
    exact hn
  · intro s n args hn hauth
    have hmem := hn
    simp only [blockedTools, List.mem_cons, List.not_mem_nil, or_false] at hmem
    rcases hmem with rfl | rfl | rfl <;>
      simp [callToolDirectly, hauth]

/-- Witness for C1 at a concrete tool set and state. -/
theorem c1_denylist_filter_vs_direct_call_witness :
    (∀ t ∈ (toolsParamOf
        [{ name := "get_addresses", description := none, inputSchema := none },
         { name := "search_products", description := some "s", inputSchema := some "i" }]).getD [],
      t.name ≠ "get_addresses")
    ∧ callToolDirectly sSample "create_cart" (some []) =
        .ok { name := "create_cart", args := [] } := by
  exact ⟨c1_denylist_filter_vs_direct_call.1 _ "get_addresses" (by decide),
         c1_denylist_filter_vs_direct_call.2 sSample "create_cart" [] (by decide) (by decide)⟩

/-- C3: with a stored token carrying a (nonzero) expiry, `getValidToken`
invoked strictly within 60 seconds of the expiry (or later) triggers
exactly one refresh call; invoked more than 60 seconds before the expiry,
or on a token without expiry, it triggers zero refresh calls and returns
the stored access token unchanged. -/
theorem c3_getValidToken_refresh_window
    (s : McpState) (td : TokenData) (now : Int)
    (fetch : TokenRequest → FetchOutcome)
    (hs : s.tokenData = some td) :
    (∀ exp, td.expires_at = some exp → exp ≠ 0 → exp - 60000 < now →
      (getValidToken s now fetch).refreshCalls = 1)
    ∧ (∀ exp, td.expires_at = some exp → now < exp - 60000 →
      getValidToken s now fetch =
        { outcome := .ok td.access_token, state := s, requests := [], refreshCalls := 0 })
    ∧ (td.expires_at = none →
      getValidToken s now fetch =
        { outcome := .ok td.access_token, state := s, requests := [], refreshCalls := 0 }) := by
  refine ⟨?_, ?_, ?_⟩
  · intro exp he hne hlt
    have h1 : (exp == 0) = false := by simpa using hne
    cases hro : (refreshAccessToken s now fetch).outcome with
    | error e => simp [getValidToken, hs, he, h1, hlt, hro]
    | ok u =>
      cases htd2 : (refreshAccessToken s now fetch).state.tokenData with
      | some td2 => simp [getValidToken, hs, he, h1, hlt, hro, htd2]
      | none => simp [getValidToken, hs, he, h1, hlt, hro, htd2]
  · intro exp he hgt
    have h2 : ¬(exp - 60000 < now) := not_lt.mpr (le_of_lt hgt)
    simp [getValidToken, hs, he, h2]
  · intro he
    simp [getValidToken, hs, he]

/-- Witness for C3 at concrete timestamps around the stored expiry. -/
theorem c3_getValidToken_refresh_window_witness :
    (getValidToken sSample 50000 fetchOkSample).refreshCalls = 1
    ∧ getValidToken sSample 30000 fetchOkSample =
        { outcome := .ok "A", state := sSample, requests := [], refreshCalls := 0 } := by
  exact ⟨(c3_getValidToken_refresh_window sSample tdSample 50000 fetchOkSample rfl).1
            100000 rfl (by decide) (by decide),
         (c3_getValidToken_refresh_window sSample tdSample 30000 fetchOkSample rfl).2.1
            100000 rfl (by decide)⟩

/-- C4: `refreshAccessToken` fails with the no-refresh-token error when no
token is stored or the stored token has no refresh token, and on a
rejected refresh exchange it fails with the refresh-failed error, clears
the stored token, and leaves `isAuthenticated` false. -/
theorem c4_refresh_rejection_clears_token
    (s : McpState) (now : Int) (fetch : TokenRequest → FetchOutcome) :
    (s.tokenData = none →
      refreshAccessToken s now fetch =
        { outcome := .error noRefreshTokenMsg, state := s, requests := [] })
    ∧ (∀ td, s.tokenData = some td → td.refresh_token = none →
      refreshAccessToken s now fetch =
        { outcome := .error noRefreshTokenMsg, state := s, requests := [] })
    ∧ (∀ td rt status body, s.tokenData = some td → td.refresh_token = some rt → rt ≠ "" →
      fetch (refreshReq rt) = .httpError status body →
      refreshAccessToken s now fetch =
        { outcome := .error refreshFailedMsg
          state := { s with tokenData := none }
          requests := [refreshReq rt] }
      ∧ isAuthenticated (refreshAccessToken s now fetch).state = false) := by
  refine ⟨?_, ?_, ?_⟩
  · intro h
    simp [refreshAccessToken, h]
  · intro td hs hrt
    simp [refreshAccessToken, hs, hrt]
  · intro td rt status body hs hrt hne hf
    have hb : (rt == "") = false := by simpa using hne
    constructor
    · simp [refreshAccessToken, hs, hrt, hb, hf]
    · simp [refreshAccessToken, hs, hrt, hb, hf, isAuthenticated]

/-- Witness for C4 on a rejected refresh exchange. -/
theorem c4_refresh_rejection_clears_token_witness :
    refreshAccessToken sSample 0 fetchRejectSample =
      { outcome := .error refreshFailedMsg
        state := { sSample with tokenData := none }
        requests := [refreshReq "R"] }
    ∧ isAuthenticated (refreshAccessToken sSample 0 fetchRejectSample).state = false := by
  exact (c4_refresh_rejection_clears_token sSample 0 fetchRejectSample).2.2
    tdSample "R" 400 "bad" rfl rfl (by decide) rfl

/-- C5: `exchangeCodeForToken` fails with the no-pending-authorization
error when no pending authorization is stored, and with the
state-mismatch error when the supplied state differs from the stored
nonce; in both cases no token-endpoint request is issued and the state is
unchanged. -/
theorem c5_exchange_guards
    (s : McpState) (code st : String) (now : Int)
    (fetch : TokenRequest → FetchOutcome) :
    (s.pendingAuth = none →
      exchangeCodeForToken s code st now fetch =
        { outcome := .error noPendingAuthMsg, state := s, requests := [] })
    ∧ (∀ pa, s.pendingAuth = some pa → pa.state ≠ st →
      exchangeCodeForToken s code st now fetch =
        { outcome := .error stateMismatchMsg, state := s, requests := [] }) := by
  constructor
  · intro h
    simp [exchangeCodeForToken, h]
  · intro pa hp hne
    simp [exchangeCodeForToken, hp, hne]

/-- Witness for C5: no pending authorization, and a one-character state
difference. -/
theorem c5_exchange_guards_witness :
    exchangeCodeForToken sSample "code" "abcd" 0 fetchOkSample =
      { outcome := .error noPendingAuthMsg, state := sSample, requests := [] }
    ∧ exchangeCodeForToken
        { sSample with pendingAuth := some { codeVerifier := "v", state := "abce" } }
        "code" "abcd" 0 fetchOkSample =
      { outcome := .error stateMismatchMsg
        state := { sSample with pendingAuth := some { codeVerifier := "v", state := "abce" } }
        requests := [] } := by
  exact ⟨(c5_exchange_guards sSample "code" "abcd" 0 fetchOkSample).1 rfl,
         (c5_exchange_guards _ "code" "abcd" 0 fetchOkSample).2
           { codeVerifier := "v", state := "abce" } rfl (by decide)⟩

/-- C6: the `code_challenge` placed in the authorization URL equals the
base64url encoding (no padding) of the SHA-256 digest of the stored code
verifier, the challenge method is `S256`, and the subsequent token
exchange sends exactly the stored verifier as `code_verifier`. -/
theorem c6_pkce_challenge_and_verifier
    (s : McpState) (hash : String → List Nat) (rb : List Nat) (stHex : String)
    (code : String) (now : Int) (fetch : TokenRequest → FetchOutcome) :
    (getAuthorizationUrl s hash rb stHex).1.pendingAuth =
      some { codeVerifier := base64urlEncode rb, state := stHex }
    ∧ (getAuthorizationUrl s hash rb stHex).2.code_challenge =
      base64urlEncode (hash (base64urlEncode rb))
    ∧ (getAuthorizationUrl s hash rb stHex).2.code_challenge_method = "S256"
    ∧ (exchangeCodeForToken (getAuthorizationUrl s hash rb stHex).1 code stHex now
        fetch).requests =
      [TokenRequest.authorizationCode code REDIRECT_URI CLIENT_ID (base64urlEncode rb)] := by
  refine ⟨rfl, rfl, rfl, ?_⟩
  have hpa : (getAuthorizationUrl s hash rb stHex).1.pendingAuth =
      some { codeVerifier := base64urlEncode rb, state := stHex } := rfl
  cases hf : fetch (TokenRequest.authorizationCode code REDIRECT_URI CLIENT_ID
      (base64urlEncode rb)) <;>
    simp [exchangeCodeForToken, hpa, authCodeReq, hf]

/-- C9: `connect` tries the Streamable HTTP transport on a fresh client
first; on any failure it retries with a second fresh client (never the
failed one) over SSE with the same bearer token; and when both attempts
fail it fails with the connect-failed error carrying the cause of the
second attempt and stores no connection handle. -/
theorem c9_connect_two_transport_fallback
    (s : McpState) (now : Int) (fetch : TokenRequest → FetchOutcome)
    (nextId : Nat) (attempt : ClientHandle → AttemptOutcome)
    (token e1 e2 : String)
    (hg : (getValidToken s now fetch).outcome = .ok token) :
    (attempt { instanceId := nextId, transport := .streamableHttp, bearerToken := token } =
        .success →
      (connect s now fetch nextId attempt).outcome = .ok ()
      ∧ (connect s now fetch nextId attempt).state.client =
          some { instanceId := nextId, transport := .streamableHttp, bearerToken := token })
    ∧ (attempt { instanceId := nextId, transport := .streamableHttp, bearerToken := token } =
        .failure e1 →
       attempt { instanceId := nextId + 1, transport := .sse, bearerToken := token } =
        .success →
      (connect s now fetch nextId attempt).outcome = .ok ()
      ∧ (connect s now fetch nextId attempt).state.client =
          some { instanceId := nextId + 1, transport := .sse, bearerToken := token })
    ∧ (attempt { instanceId := nextId, transport := .streamableHttp, bearerToken := token } =
        .failure e1 →
       attempt { instanceId := nextId + 1, transport := .sse, bearerToken := token } =
        .failure e2 →
      connect s now fetch nextId attempt =
        { outcome := .error ("Failed to connect to MCP server: " ++ e2)
          state := { (getValidToken s now fetch).state with client := none }
          requests := (getValidToken s now fetch).requests }) := by
  refine ⟨?_, ?_, ?_⟩
  · intro h1
    constructor <;> simp [connect, hg, h1]
  · intro h1 h2
    constructor <;> simp [connect, hg, h1, h2]
  · intro h1 h2
    simp [connect, hg, h1, h2]

/-- A handshake oracle on which both transports fail. -/
def attemptBothFail : ClientHandle → AttemptOutcome := fun h =>
  match h.transport with
  | .streamableHttp => .failure "http down"
  | .sse => .failure "sse down"

/-- Witness for C9: both attempts fail, the run errors with the second
cause and no client handle is stored. -/
theorem c9_connect_two_transport_fallback_witness :
    (connect sSample 0 fetchOkSample 0 attemptBothFail).outcome =
      .error "Failed to connect to MCP server: sse down"
    ∧ (connect sSample 0 fetchOkSample 0 attemptBothFail).state.client = none := by
  have h := (c9_connect_two_transport_fallback sSample 0 fetchOkSample 0 attemptBothFail
    "A" "http down" "sse down" rfl).2.2 rfl rfl
  rw [h]
  exact ⟨rfl, rfl⟩

/-- C10: a rejected token-endpoint exchange inside `completeAuthorization`
throws the token-exchange-failed error while leaving the stored pending
authorization and token data unchanged, so the same `(code, state)`
callback can be retried; the pending authorization is cleared only on a
successful exchange. -/
theorem c10_exchange_rejection_preserves_state
    (s : McpState) (pa : PendingAuth) (code : String) (now : Int)
    (status : Nat) (body : String)
    (fetch fetch2 : TokenRequest → FetchOutcome) (tok : TokenData)
    (hp : s.pendingAuth = some pa)
    (hf : fetch (authCodeReq code pa.codeVerifier) = .httpError status body)
    (hf2 : fetch2 (authCodeReq code pa.codeVerifier) = .ok tok) :
    exchangeCodeForToken s code pa.state now fetch =
      { outcome := .error ("Token exchange failed: " ++ toString status ++ " " ++ body)
        state := s
        requests := [authCodeReq code pa.codeVerifier] }
    ∧ (exchangeCodeForToken s code pa.state now fetch2).outcome = .ok ()
    ∧ (exchangeCodeForToken s code pa.state now fetch2).state.pendingAuth = none
    ∧ (exchangeCodeForToken s code pa.state now fetch2).state.tokenData =
        some (applyExpiry tok now) := by
  refine ⟨?_, ?_, ?_, ?_⟩ <;>
    simp [exchangeCodeForToken, hp, hf, hf2]

/-- Witness for C10 at a concrete pending authorization and rejected then
successful exchanges. -/
theorem c10_exchange_rejection_preserves_state_witness :
    exchangeCodeForToken
        { sSample with pendingAuth := some { codeVerifier := "ver", state := "nonce" } }
        "code" "nonce" 0 fetchRejectSample =
      { outcome := .error "Token exchange failed: 400 bad"
        state := { sSample with pendingAuth := some { codeVerifier := "ver", state := "nonce" } }
        requests := [authCodeReq "code" "ver"] }
    ∧ (exchangeCodeForToken
        { sSample with pendingAuth := some { codeVerifier := "ver", state := "nonce" } }
        "code" "nonce" 0 fetchOkSample).state.pendingAuth = none := by
  have h := c10_exchange_rejection_preserves_state
    { sSample with pendingAuth := some { codeVerifier := "ver", state := "nonce" } }
    { codeVerifier := "ver", state := "nonce" } "code" 0 400 "bad"
    fetchRejectSample fetchOkSample
    { access_token := "B", refresh_token := some "R2", token_type := "Bearer"
      expires_in := some 3600, expires_at := none }
    rfl rfl rfl
  exact ⟨h.1, h.2.2.1⟩

/-- Helper: under a model that always requests further tool calls, the
loop returns the fixed cap response for every fuel value. -/
theorem runLoop_cap_of_always_tool_calls
    (modelFn : ChatRequest → AssistantReply)
    (exec : String → Args → Except String String)
    (toolsArg : Option (List OpenAITool))
    (h : ∀ req, (modelFn req).finish_reason = "tool_calls" ∧ (modelFn req).tool_calls ≠ []) :
    ∀ (n : Nat) (messages : List ChatMsg) (log : List ToolCallRecord),
      (runLoop modelFn exec toolsArg messages log n).response = maxIterationsResponse := by
  intro n
  induction n with
  | zero => intro messages log; rfl
  | succ m ih =>
    intro messages log
    obtain ⟨h1, h2⟩ := h { tools := toolsArg, messages := messages }
    have h3 : (modelFn { tools := toolsArg, messages := messages }).tool_calls.isEmpty
        = false := by
      cases hc : (modelFn { tools := toolsArg, messages := messages }).tool_calls with
      | nil => exact absurd hc h2
      | cons a l => rfl
    simp only [runLoop, h1, h3, bne_self_eq_false, Bool.false_or, Bool.false_eq_true,
      if_false]
    exact ih _ _

/-- A chat-completion oracle that requests exactly one function tool call
in every round, regardless of the conversation. -/
def oneToolPerRoundModel : ChatRequest → AssistantReply := fun _ =>
  { content := none
    finish_reason := "tool_calls"
    tool_calls := [{ id := "c1", callType := "function", name := "get_cart"
                     parsedArgs := some [] }] }

/-- A remote tool executor that always succeeds. -/
def alwaysOkExec : String → Args → Except String String := fun _ _ => .ok "ok"

/-- C2: `runPrompt` performs at most `maxIterations` think/act rounds; if
the model keeps requesting tool calls, it returns the fixed
max-iterations message with the accumulated trace; in particular with
`maxIterations = 2` and a model calling exactly one tool every round the
trace has exactly 2 records and the response is the cap message. -/
theorem c2_runPrompt_iteration_cap
    (modelFn : ChatRequest → AssistantReply)
    (exec : String → Args → Except String String)
    (mcpTools : List McpTool) (prompt : String) (n : Nat)
    (h : ∀ req, (modelFn req).finish_reason = "tool_calls" ∧ (modelFn req).tool_calls ≠ []) :
    (runPrompt modelFn exec mcpTools prompt n).response = maxIterationsResponse
    ∧ (runPrompt oneToolPerRoundModel alwaysOkExec mcpTools prompt 2).response
        = maxIterationsResponse
    ∧ (runPrompt oneToolPerRoundModel alwaysOkExec mcpTools prompt 2).toolCalls =
        [{ tool := "get_cart", args := [], result := .content "ok" },
         { tool := "get_cart", args := [], result := .content "ok" }] := by
  refine ⟨runLoop_cap_of_always_tool_calls modelFn exec (toolsParamOf mcpTools) h n
      (initialMessages prompt) [], ?_, ?_⟩
  · exact runLoop_cap_of_always_tool_calls oneToolPerRoundModel alwaysOkExec
      (toolsParamOf mcpTools) (fun req => ⟨rfl, by simp [oneToolPerRoundModel]⟩) 2
      (initialMessages prompt) []
  · rfl

/-- Witness for C2: a model that always calls one tool per round, capped
at 2 iterations, on a concrete prompt. -/
theorem c2_runPrompt_iteration_cap_witness :
    (runPrompt oneToolPerRoundModel alwaysOkExec [] "order biryani" 5).response
      = maxIterationsResponse
    ∧ (runPrompt oneToolPerRoundModel alwaysOkExec [] "order biryani" 2).toolCalls =
        [{ tool := "get_cart", args := [], result := .content "ok" },
         { tool := "get_cart", args := [], result := .content "ok" }] := by
  exact ⟨(c2_runPrompt_iteration_cap oneToolPerRoundModel alwaysOkExec [] "order biryani" 5
            (fun req => ⟨rfl, by simp [oneToolPerRoundModel]⟩)).1,
         (c2_runPrompt_iteration_cap oneToolPerRoundModel alwaysOkExec [] "order biryani" 5
            (fun req => ⟨rfl, by simp [oneToolPerRoundModel]⟩)).2.2⟩

/-- C7: a tool call whose remote invocation throws is recorded in the
trace with the error-shaped result instead of terminating the run, its
tool-result message is still appended to the conversation, the remaining
tool calls of the round still execute, and the loop proceeds to the next
prompting round (here: a second round in which the model produces the
final answer). -/
theorem c7_tool_error_recorded_and_run_continues
    (modelFn : ChatRequest → AssistantReply)
    (exec : String → Args → Except String String)
    (tc1 tc2 : ToolCallReq) (e r f : String)
    (toolsArg : Option (List OpenAITool))
    (hct1 : tc1.callType = "function") (hct2 : tc2.callType = "function")
    (hn1 : (tc1.name == "get_addresses") = false)
    (hn2 : (tc2.name == "get_addresses") = false)
    (he1 : exec tc1.name (effectiveArgs tc1) = .error e)
    (he2 : exec tc2.name (effectiveArgs tc2) = .ok r) :
    execRound exec [tc1, tc2] =
      ([{ tool := tc1.name, args := effectiveArgs tc1, result := .errObj e },
        { tool := tc2.name, args := effectiveArgs tc2, result := .content r }],
       [ChatMsg.tool tc1.id (stringifyResult (.errObj e)),
        ChatMsg.tool tc2.id (stringifyResult (.content r))])
    ∧ (∀ (msgs : List ChatMsg) (log : List ToolCallRecord) (k : Nat),
        modelFn { tools := toolsArg, messages := msgs } =
          { content := none, finish_reason := "tool_calls", tool_calls := [tc1, tc2] } →
        modelFn { tools := toolsArg
                  messages := (msgs ++ [ChatMsg.assistant none [tc1, tc2]]) ++
                    [ChatMsg.tool tc1.id (stringifyResult (.errObj e)),
                     ChatMsg.tool tc2.id (stringifyResult (.content r))] } =
          { content := some f, finish_reason := "stop", tool_calls := [] } →
        (f == "") = false →
        runLoop modelFn exec toolsArg msgs log (k + 2) =
          { response := f
            toolCalls := log ++
              [{ tool := tc1.name, args := effectiveArgs tc1, result := .errObj e },
               { tool := tc2.name, args := effectiveArgs tc2, result := .content r }] }) := by
  have hround : execRound exec [tc1, tc2] =
      ([{ tool := tc1.name, args := effectiveArgs tc1, result := .errObj e },
        { tool := tc2.name, args := effectiveArgs tc2, result := .content r }],
       [ChatMsg.tool tc1.id (stringifyResult (.errObj e)),
        ChatMsg.tool tc2.id (stringifyResult (.content r))]) := by
    simp [execRound, runToolCall, hct1, hct2, hn1, hn2, he1, he2]
  refine ⟨hround, ?_⟩
  intro msgs log k hm1 hm2 hfne
  simp only [runLoop, hm1, hround, hm2, bne_self_eq_false, List.isEmpty_cons,
    Bool.false_or, Bool.false_eq_true, if_false, finalResponseText, hfne]
  simp [hfne]

/-- A tool-call request against a failing remote tool, used by the C7
witness. -/
def failingCallSample : ToolCallReq :=
  { id := "c1", callType := "function", name := "get_cart", parsedArgs := some [] }

/-- A tool-call request against a succeeding remote tool, used by the C7
witness. -/
def okCallSample : ToolCallReq :=
  { id := "c2", callType := "function", name := "place_order", parsedArgs := some [] }

/-- A remote executor on which `get_cart` throws and every other tool
succeeds, used by the C7 witness. -/
def failGetCartExec : String → Args → Except String String := fun name _ =>
  if name == "get_cart" then .error "boom" else .ok "done"

/-- A chat-completion oracle that requests the two sample calls in the
first round and answers `all done` once two tool results are present,
used by the C7 witness. -/
def twoRoundModelSample : ChatRequest → AssistantReply := fun req =>
  if req.messages.length ≤ 2 then
    { content := none, finish_reason := "tool_calls"
      tool_calls := [failingCallSample, okCallSample] }
  else
    { content := some "all done", finish_reason := "stop", tool_calls := [] }

/-- Witness for C7: the failing call is recorded error-shaped, the second
call still runs, and the run finishes with the next round's answer. -/
theorem c7_tool_error_recorded_and_run_continues_witness :
    runLoop twoRoundModelSample failGetCartExec none (initialMessages "hi") [] 10 =
      { response := "all done"
        toolCalls :=
          [{ tool := "get_cart", args := [], result := .errObj "boom" },
           { tool := "place_order", args := [], result := .content "done" }] } := by
  have h := (c7_tool_error_recorded_and_run_continues twoRoundModelSample failGetCartExec
      failingCallSample okCallSample "boom" "done" "all done" none
      rfl rfl rfl rfl rfl rfl).2 (initialMessages "hi") [] 8 rfl rfl rfl
  exact h

/-- C8: whenever a model-issued function tool call's parsed argument set
contains an `address_id` field or its tool name contains `address`, the
arguments recorded in the trace and sent to the tool carry `address_id`
equal to the fixed configured identifier, regardless of what the model
supplied. -/
theorem c8_address_id_overwritten
    (exec : String → Args → Except String String) (tc : ToolCallReq)
    (hct : tc.callType = "function")
    (h : hasKey (tc.parsedArgs.getD []) "address_id" = true
         ∨ strIncludes tc.name "address" = true) :
    getKey (effectiveArgs tc) "address_id" = some (JVal.s FIXED_ADDRESS_ID)
    ∧ (runToolCall exec tc).map (fun p => p.1.args) = some (effectiveArgs tc)
    ∧ ((tc.name == "get_addresses") = false →
        runToolCall exec tc = some
          ({ tool := tc.name, args := effectiveArgs tc
             result := match exec tc.name (effectiveArgs tc) with
                       | .ok c => ToolResultVal.content c
                       | .error e2 => ToolResultVal.errObj e2 },
           ChatMsg.tool tc.id (stringifyResult
             (match exec tc.name (effectiveArgs tc) with
              | .ok c => ToolResultVal.content c
              | .error e2 => ToolResultVal.errObj e2)))) := by
  have hcond : (hasKey (tc.parsedArgs.getD []) "address_id"
      || strIncludes tc.name "address") = true := by
    rcases h with h | h <;> simp [h]
  refine ⟨?_, ?_, ?_⟩
  · rw [effectiveArgs]
    simp only [hcond, if_true]
    exact getKey_setKey _ _ _
  · rw [runToolCall]
    simp only [hct, bne_self_eq_false, Bool.false_eq_true, if_false]
    cases hgn : (tc.name == "get_addresses") <;>
      cases hex : exec tc.name (effectiveArgs tc) <;>
        simp [hgn, hex]
  · intro hgn
    rw [runToolCall]
    simp only [hct, bne_self_eq_false, Bool.false_eq_true, if_false, hgn]

/-- A call on which the model supplied its own `address_id` value, used
by the C8 witness. -/
def addrArgsCallSample : ToolCallReq :=
  { id := "c1", callType := "function", name := "modify_cart"
    parsedArgs := some [("address_id", JVal.s "attacker-chosen")] }

/-- A call whose tool name contains `address` but whose arguments do not,
used by the C8 witness. -/
def addrNameCallSample : ToolCallReq :=
  { id := "c2", callType := "function", name := "get_address_hints", parsedArgs := some [] }

/-- Witness for C8: a call whose model-supplied `address_id` differs from
the fixed identifier, and an address-implying tool name without the
field. -/
theorem c8_address_id_overwritten_witness :
    getKey (effectiveArgs addrArgsCallSample) "address_id" = some (JVal.s FIXED_ADDRESS_ID)
    ∧ getKey (effectiveArgs addrNameCallSample) "address_id" =
        some (JVal.s FIXED_ADDRESS_ID) := by
  exact ⟨(c8_address_id_overwritten alwaysOkExec addrArgsCallSample rfl
            (Or.inl (by decide))).1,
         (c8_address_id_overwritten alwaysOkExec addrNameCallSample rfl
            (Or.inr (by decide))).1⟩

end OmiHack
